import Mathlib

/-!
Verification development for the MPPT buck-converter charge controller
(source file MPPT_Buck_Converter_ACS712.ino, software revision 1.62).

Modelling conventions:
* Arduino `float` arithmetic is embedded exactly over `ℚ`.  None of the
  verified properties hinge on rounding: they concern branch structure,
  comparisons against constants, and exact small-step arithmetic.
* `byte controlMode` is embedded as `ℕ` with the source's mode codes.
* The monotone millisecond clock `millis()` and the stored timestamps
  (`lastMppt`, `lastCalc`, `lastVcc`) are embedded as `ℕ`; within one run the
  clock never decreases, so the truncated `ℕ` subtraction agrees with the
  source's unsigned subtraction.
* `analogRead` results arrive through a `Reading` record; `analogWrite(PWM, x)`
  is observed by recording the argument `x` in the `pwmOut` field.
* Division on `ℚ` is total (`x / 0 = 0`), mirroring that the source performs
  the input-current division with no guard on the divisor.
* Serial printing and the status LED have no effect on controller state and
  are omitted.
-/

/-- Mode code Constant Voltage (source: define CV 1). -/
def CV : ℕ := 1

/-- Mode code Constant Current (source: define CC 2). -/
def CC : ℕ := 2

/-- Mode code Maximum Power Point Tracking (source: define MPPT 3). -/
def MPPT : ℕ := 3

/-- Mode code Battery Protection (source: define BP 4). -/
def BP : ℕ := 4

/-- ACS712 volts-per-amp calibration for the 5 A sensor at 5 V supply
(the F_CPU = 16000000 build branch of the source). -/
def acs712VoltsPerAmp : ℚ := 0.185

/-- ACS712 zero offset in ADC counts (source line 79). -/
def acs712Offset : ℚ := 504

/-- Configuration variables of the source (lines 87-94) that the control code
reads but never writes.  `targetOutputVoltage` is kept in the mutable state
instead, because `readPot` rewrites it between cycles. -/
structure Config where
  minPanelVoltage : ℚ
  maxPanelVoltage : ℚ
  trackingIncrement : ℚ
  maxOutputCurrent : ℚ
  efficiency : ℚ

/-- The configuration constants as initialised in the source. -/
def defaultConfig : Config :=
  { minPanelVoltage := 12
    maxPanelVoltage := 16
    trackingIncrement := 0.5
    maxOutputCurrent := 3
    efficiency := 0.82 }

/-- One batch of raw analog inputs consumed by a sensor read: the two voltage
dividers, the ACS712 output, and the reference-voltage measurement in
millivolts (`readVcc()`). -/
structure Reading where
  vsenseIn : ℚ
  isenseOut : ℚ
  vsenseOut : ℚ
  vccMillivolts : ℚ

/-- The controller's process-wide mutable state: the Measurement Snapshot, the
filter window of `averageA`, the Controller State, the Tracking Memory
timestamps, the model clock, and the last value handed to `analogWrite`. -/
structure State where
  inputVoltage : ℚ
  inputCurrent : ℚ
  outputPower : ℚ
  outputPowerDelta : ℚ
  outputPowerPrevious : ℚ
  outputVoltage : ℚ
  outputCurrent : ℚ
  controlMode : ℕ
  pwm : ℚ
  trackingDownwards : Bool
  vcc : ℚ
  targetPanelVoltage : ℚ
  targetOutputVoltage : ℚ
  raw0 : ℚ
  raw1 : ℚ
  raw2 : ℚ
  raw3 : ℚ
  lastMppt : ℕ
  lastCalc : ℕ
  lastVcc : ℕ
  millis : ℕ
  pwmOut : ℚ

/-- Initial state: C++ zero-initialises the uninitialised globals; the
explicitly initialised ones carry their source values (lines 62, 84, 88, 91). -/
def initialState : State :=
  { inputVoltage := 0
    inputCurrent := 0
    outputPower := 0
    outputPowerDelta := 0
    outputPowerPrevious := 9999
    outputVoltage := 0
    outputCurrent := 0
    controlMode := 0
    pwm := 0
    trackingDownwards := false
    vcc := 4.5
    targetPanelVoltage := 14
    targetOutputVoltage := 4.2
    raw0 := 0
    raw1 := 0
    raw2 := 0
    raw3 := 0
    lastMppt := 0
    lastCalc := 0
    lastVcc := 0
    millis := 0
    pwmOut := 0 }

/-- Running-average subfunction `averageA` (source lines 142-151): shift the
4-sample window, scale the new ACS712 count, return the mean together with the
updated window. -/
def averageA (isenseOut : ℚ) (s : State) : ℚ × State :=
  let r3 := s.raw2
  let r2 := s.raw1
  let r1 := s.raw0
  let r0 := (isenseOut - acs712Offset) * s.vcc / acs712VoltsPerAmp / 1024
  ((r0 + r1 + r2 + r3) / 4,
   { s with raw0 := r0, raw1 := r1, raw2 := r2, raw3 := r3 })

/-- Main sensor read `readSensors` (source lines 155-166), statement by
statement in source order.  Note that `outputPower` is assigned from the state's
previous `outputVoltage`, one line before `outputVoltage` is recomputed, and
that `inputCurrent` divides by `inputVoltage` with no guard. -/
def readSensors (c : Config) (r : Reading) (s : State) : State :=
  let inputVoltage := r.vsenseIn * s.vcc / 93
  let p := averageA r.isenseOut s
  let outputCurrent := p.1
  let s1 := p.2
  let outputPower := s.outputVoltage * outputCurrent
  let outputVoltage := inputVoltage - r.vsenseOut * s.vcc / 92
  let inputCurrent := outputCurrent * outputVoltage / inputVoltage / c.efficiency
  { s1 with
    inputVoltage := inputVoltage
    outputCurrent := outputCurrent
    outputPower := outputPower
    outputVoltage := outputVoltage
    inputCurrent := inputCurrent }

/-- `checkVcc` (source lines 320-327): every 1000 ms, refresh the reference
voltage estimate from a millivolt reading. -/
def checkVcc (vccMillivolts : ℚ) (s : State) : State :=
  if s.millis - s.lastVcc ≥ 1000 then
    { s with lastVcc := s.millis, vcc := vccMillivolts / 1000 }
  else s

/-- Overvoltage lockout `lockout` (source lines 174-181): zero the pwm
accumulator itself and switch the output off. -/
def lockout (s : State) : State :=
  { s with pwm := 0, pwmOut := 0 }

/-- Condition of the panel undervoltage wait loop (source line 201). -/
abbrev uvCond (s : State) : Prop :=
  s.outputVoltage < 1 ∧ s.inputVoltage < 15

/-- One iteration of the undervoltage wait body (source lines 201-209): force
pwm to 0, write it out, delay 2000 ms, refresh vcc, re-read the sensors. -/
def uvWaitStep (c : Config) (r : Reading) (s : State) : State :=
  let s1 := { s with pwm := 0, pwmOut := 0 }
  let s2 := { s1 with millis := s1.millis + 2000 }
  let s3 := checkVcc r.vccMillivolts s2
  readSensors c r s3

/-- The undervoltage `while` loop, run against a finite window of future
readings: it keeps iterating the body while the condition holds and stops as
soon as the condition clears (or the window is exhausted). -/
def uvWait (c : Config) : List Reading → State → State
  | [], s => s
  | r :: rs, s => if uvCond s then uvWait c rs (uvWaitStep c r s) else s

/-- Constant Voltage predicate, verbatim the condition of source line 214. -/
abbrev cvPred (c : Config) (s : State) : Prop :=
  s.outputVoltage > s.targetOutputVoltage - 0.2 ∧
    s.outputCurrent ≤ c.maxOutputCurrent

/-- Constant Current predicate, verbatim the condition of source line 221. -/
abbrev ccPred (c : Config) (s : State) : Prop :=
  s.outputCurrent > c.maxOutputCurrent ∧ s.outputVoltage < s.targetOutputVoltage

/-- Battery Protection predicate, verbatim the condition of source line 227. -/
abbrev bpPred (c : Config) (s : State) : Prop :=
  s.outputCurrent > c.maxOutputCurrent ∧ s.outputVoltage > s.targetOutputVoltage

/-- The stepped MPPT target: `targetPanelVoltage` moved by `trackingIncrement`
in the current tracking direction (source lines 244-245). -/
def steppedTarget (c : Config) (s : State) : ℚ :=
  if s.trackingDownwards then s.targetPanelVoltage - c.trackingIncrement
  else s.targetPanelVoltage + c.trackingIncrement

/-- Body of the MPPT direction sub-loop (source lines 241-270, the work guarded
by the 1000 ms timer): compute the power delta, step the target, snap to the
midpoint when the stepped target leaves the configured band (skipping the flip
check), otherwise flip the direction when the delta is below 0.1, and store the
power for the next comparison. -/
def mpptDirectionStep (c : Config) (s : State) : State :=
  let delta := s.outputPower - s.outputPowerPrevious
  let t := steppedTarget c s
  let s1 :=
    if t ≤ c.minPanelVoltage then
      { s with targetPanelVoltage := (c.minPanelVoltage + c.maxPanelVoltage) / 2 }
    else if t ≥ c.maxPanelVoltage then
      { s with targetPanelVoltage := (c.minPanelVoltage + c.maxPanelVoltage) / 2 }
    else
      if delta < 0.1 then
        { s with targetPanelVoltage := t,
                 trackingDownwards := !s.trackingDownwards }
      else { s with targetPanelVoltage := t }
  { s1 with outputPowerDelta := delta, outputPowerPrevious := s.outputPower }

/-- The MPPT mode body (source lines 234-278): the direction sub-loop fires
every 1000 ms, the convergence sub-loop every 50 ms; only the latter touches
`pwm`. -/
def mpptBranch (c : Config) (s : State) : State :=
  let s1 :=
    if s.millis - s.lastMppt ≥ 1000 then
      mpptDirectionStep c { s with lastMppt := s.millis }
    else s
  if s1.millis - s1.lastCalc ≥ 50 then
    { s1 with pwm := s1.pwm - (s1.targetPanelVoltage - s1.inputVoltage),
              lastCalc := s1.millis }
  else s1

/-- Mode arbitration (source lines 214-279): the if / else-if chain over the
current Measurement Snapshot, each branch applying its own delta to `pwm` and
setting `controlMode`. -/
def arbitrate (c : Config) (s : State) : State :=
  if cvPred c s then
    let pwm1 := s.pwm + (s.targetOutputVoltage - s.outputVoltage)
    let pwm2 :=
      if s.inputVoltage < c.minPanelVoltage then
        pwm1 - (c.minPanelVoltage - s.inputVoltage)
      else pwm1
    { s with pwm := pwm2, controlMode := CV }
  else if ccPred c s then
    { s with pwm := s.pwm - (s.outputCurrent - c.maxOutputCurrent),
             controlMode := CC }
  else if bpPred c s then
    { s with pwm := s.pwm - 1, controlMode := BP }
  else
    mpptBranch c { s with controlMode := MPPT }

/-- Arduino's `constrain(amt, low, high)` macro. -/
def constrain (amt low high : ℚ) : ℚ :=
  if amt < low then low else if amt > high then high else amt

/-- The tail of a control cycle once the undervoltage gate has been passed
(source lines 211-288): arbitration, the overvoltage protection check, the
clamp of `pwm` back into `[0, 150]`, and the final `analogWrite`. -/
def cycleAfterGate (c : Config) (s : State) : State :=
  let s1 := arbitrate c s
  let s2 :=
    if s1.outputVoltage > s1.targetOutputVoltage + 1 then lockout s1 else s1
  let s3 := { s2 with pwm := constrain s2.pwm 0 150 }
  { s3 with pwmOut := s3.pwm }

/-- One invocation of `mppt()` (source lines 188-289): read the sensors, run
the undervoltage wait against the window `rs` of future readings, and proceed
to arbitration only when the wait condition has cleared.  `none` models the
cycle still being stuck in the blocking wait at the end of the window. -/
def mpptCycle (c : Config) (r0 : Reading) (rs : List Reading) (s : State) :
    Option State :=
  let s1 := readSensors c r0 s
  let w := uvWait c rs s1
  if uvCond w then none else some (cycleAfterGate c w)

/-- The mode table exactly as the specification words it (sections 4.4 and 8):
first predicate that holds, in priority order CV over CC over BP over MPPT. -/
def specModeTable (c : Config) (s : State) : ℕ :=
  if s.outputVoltage > s.targetOutputVoltage - 0.2 ∧
      s.outputCurrent ≤ c.maxOutputCurrent then CV
  else if s.outputCurrent > c.maxOutputCurrent ∧
      s.outputVoltage < s.targetOutputVoltage then CC
  else if s.outputCurrent > c.maxOutputCurrent ∧
      s.outputVoltage > s.targetOutputVoltage then BP
  else MPPT

/-! ### Field-preservation helper lemmas -/

theorem mpptDirectionStep_controlMode (c : Config) (s : State) :
    (mpptDirectionStep c s).controlMode = s.controlMode := by
  simp only [mpptDirectionStep, steppedTarget]
  split_ifs <;> rfl

theorem mpptDirectionStep_outputVoltage (c : Config) (s : State) :
    (mpptDirectionStep c s).outputVoltage = s.outputVoltage := by
  simp only [mpptDirectionStep, steppedTarget]
  split_ifs <;> rfl

theorem mpptDirectionStep_targetOutputVoltage (c : Config) (s : State) :
    (mpptDirectionStep c s).targetOutputVoltage = s.targetOutputVoltage := by
  simp only [mpptDirectionStep, steppedTarget]
  split_ifs <;> rfl

theorem mpptDirectionStep_inputVoltage (c : Config) (s : State) :
    (mpptDirectionStep c s).inputVoltage = s.inputVoltage := by
  simp only [mpptDirectionStep, steppedTarget]
  split_ifs <;> rfl

theorem mpptDirectionStep_pwm (c : Config) (s : State) :
    (mpptDirectionStep c s).pwm = s.pwm := by
  simp only [mpptDirectionStep, steppedTarget]
  split_ifs <;> rfl

theorem mpptDirectionStep_millis (c : Config) (s : State) :
    (mpptDirectionStep c s).millis = s.millis := by
  simp only [mpptDirectionStep, steppedTarget]
  split_ifs <;> rfl

theorem mpptDirectionStep_lastCalc (c : Config) (s : State) :
    (mpptDirectionStep c s).lastCalc = s.lastCalc := by
  simp only [mpptDirectionStep, steppedTarget]
  split_ifs <;> rfl

theorem mpptBranch_controlMode (c : Config) (s : State) :
    (mpptBranch c s).controlMode = s.controlMode := by
  simp only [mpptBranch]
  split_ifs <;> simp [mpptDirectionStep_controlMode]

theorem mpptBranch_outputVoltage (c : Config) (s : State) :
    (mpptBranch c s).outputVoltage = s.outputVoltage := by
  simp only [mpptBranch]
  split_ifs <;> simp [mpptDirectionStep_outputVoltage]

theorem mpptBranch_targetOutputVoltage (c : Config) (s : State) :
    (mpptBranch c s).targetOutputVoltage = s.targetOutputVoltage := by
  simp only [mpptBranch]
  split_ifs <;> simp [mpptDirectionStep_targetOutputVoltage]

theorem arbitrate_outputVoltage (c : Config) (s : State) :
    (arbitrate c s).outputVoltage = s.outputVoltage := by
  simp only [arbitrate]
  split_ifs <;> simp [mpptBranch_outputVoltage]

theorem arbitrate_targetOutputVoltage (c : Config) (s : State) :
    (arbitrate c s).targetOutputVoltage = s.targetOutputVoltage := by
  simp only [arbitrate]
  split_ifs <;> simp [mpptBranch_targetOutputVoltage]

theorem constrain_mem (x : ℚ) : 0 ≤ constrain x 0 150 ∧ constrain x 0 150 ≤ 150 := by
  unfold constrain
  split_ifs <;> constructor <;> linarith

theorem cycleAfterGate_pwmOut_eq (c : Config) (s : State) :
    (cycleAfterGate c s).pwmOut =
      constrain (if (arbitrate c s).outputVoltage >
          (arbitrate c s).targetOutputVoltage + 1 then
            (lockout (arbitrate c s)).pwm
          else (arbitrate c s).pwm) 0 150 := by
  simp only [cycleAfterGate]
  split_ifs <;> rfl

theorem cycleAfterGate_pwm_eq (c : Config) (s : State) :
    (cycleAfterGate c s).pwm =
      constrain (if (arbitrate c s).outputVoltage >
          (arbitrate c s).targetOutputVoltage + 1 then
            (lockout (arbitrate c s)).pwm
          else (arbitrate c s).pwm) 0 150 := by
  simp only [cycleAfterGate]
  split_ifs <;> rfl

/-! ### Claim theorems -/

/-- C1: each control cycle, mode arbitration evaluates the four mode predicates
in strict priority order CV > CC > BP > MPPT on the current Measurement
Snapshot and sets `controlMode` to exactly the first branch whose predicate
holds (matching the spec's mode table), and exactly one mode's pwm arithmetic
executes per cycle: the resulting `pwm` is the sole selected branch's delta
applied to the incoming accumulator. -/
theorem arbitration_priority (c : Config) (s : State) :
    (arbitrate c s).controlMode = specModeTable c s ∧
    (arbitrate c s).pwm =
      (if cvPred c s then
        s.pwm + (s.targetOutputVoltage - s.outputVoltage) -
          (if s.inputVoltage < c.minPanelVoltage then
            c.minPanelVoltage - s.inputVoltage
          else 0)
      else if ccPred c s then s.pwm - (s.outputCurrent - c.maxOutputCurrent)
      else if bpPred c s then s.pwm - 1
      else if s.millis - s.lastCalc ≥ 50 then
        s.pwm -
          ((if s.millis - s.lastMppt ≥ 1000 then
              mpptDirectionStep c { s with controlMode := MPPT, lastMppt := s.millis }
            else { s with controlMode := MPPT }).targetPanelVoltage -
            s.inputVoltage)
      else s.pwm) := by
  constructor
  · simp only [arbitrate, specModeTable]
    split_ifs <;>
      simp [mpptBranch_controlMode, CV, CC, BP, MPPT]
  · simp only [arbitrate, mpptBranch]
    split_ifs <;>
      simp_all [mpptDirectionStep_millis, mpptDirectionStep_lastCalc,
        mpptDirectionStep_pwm, mpptDirectionStep_inputVoltage]

/-- Concrete overvoltage state: output 6 V against a 4.2 V target. -/
def stOvervoltage : State := { initialState with outputVoltage := 6 }

/-- C2: for every Measurement Snapshot with
`outputVoltage > targetOutputVoltage + 1.0`, the duty-cycle value written to
the PWM actuator that cycle is 0, regardless of the selected mode and of the
mode arithmetic's effect on `pwm`. -/
theorem overvoltage_zero_duty (c : Config) (s : State)
    (h : s.outputVoltage > s.targetOutputVoltage + 1) :
    (cycleAfterGate c s).pwmOut = 0 := by
  have h1 : (arbitrate c s).outputVoltage >
      (arbitrate c s).targetOutputVoltage + 1 := by
    rw [arbitrate_outputVoltage, arbitrate_targetOutputVoltage]; exact h
  rw [cycleAfterGate_pwmOut_eq, if_pos h1]
  simp [lockout, constrain]

/-- Witness for C2 at the concrete overvoltage state. -/
theorem overvoltage_zero_duty_witness :
    (cycleAfterGate defaultConfig stOvervoltage).pwmOut = 0 :=
  overvoltage_zero_duty defaultConfig stOvervoltage
    (by norm_num [stOvervoltage, initialState])

/-- C3: the duty-cycle value sent to the actuator at the end of every control
cycle lies within `[0, 150]`, even when the internal pwm accumulator went
outside that range during the cycle. -/
theorem duty_within_bounds (c : Config) (s : State) :
    0 ≤ (cycleAfterGate c s).pwmOut ∧ (cycleAfterGate c s).pwmOut ≤ 150 := by
  rw [cycleAfterGate_pwmOut_eq]
  exact constrain_mem _

/-- C10: whenever the overvoltage lockout triggers, the persistent pwm
accumulator itself — not merely the actuator value — ends the cycle at 0, so
the next cycle's delta corrections integrate from duty 0. -/
theorem lockout_zeroes_accumulator (c : Config) (s : State)
    (h : s.outputVoltage > s.targetOutputVoltage + 1) :
    (cycleAfterGate c s).pwm = 0 := by
  have h1 : (arbitrate c s).outputVoltage >
      (arbitrate c s).targetOutputVoltage + 1 := by
    rw [arbitrate_outputVoltage, arbitrate_targetOutputVoltage]; exact h
  rw [cycleAfterGate_pwm_eq, if_pos h1]
  simp [lockout, constrain]

/-- Witness for C10 at the concrete overvoltage state, with a nonzero
pre-lockout accumulator. -/
theorem lockout_zeroes_accumulator_witness :
    (cycleAfterGate defaultConfig { stOvervoltage with pwm := 120 }).pwm = 0 :=
  lockout_zeroes_accumulator defaultConfig { stOvervoltage with pwm := 120 }
    (by norm_num [stOvervoltage, initialState])

/-- Concrete state for the wind-up question: accumulator already at 150, CV
conditions hold with a positive voltage error, panel voltage healthy, no
overvoltage. -/
def stWindup : State :=
  { initialState with
    pwm := 150
    outputVoltage := 4
    targetOutputVoltage := 4.1
    inputVoltage := 16 }

/-- C4 counterexample: during this cycle the CV arithmetic drives the
accumulator to 150.1, yet the value of `pwm` at the end of the cycle — the
value the next cycle starts from — is the clamped 150, not 150.1.  The
accumulator therefore is clamped (source line 285 assigns the constrained
value back to `pwm`) and cannot remain outside `[0, 150]` across a cycle
boundary. -/
theorem pwm_windup_counterexample :
    (arbitrate defaultConfig stWindup).pwm = 150.1 ∧
    (cycleAfterGate defaultConfig stWindup).pwm = 150 ∧
    (cycleAfterGate defaultConfig stWindup).pwm ≠
      (arbitrate defaultConfig stWindup).pwm := by
  refine ⟨?_, ?_, ?_⟩ <;>
    norm_num [arbitrate, cvPred, ccPred, bpPred, cycleAfterGate, lockout,
      constrain, defaultConfig, initialState, stWindup]

/-- C4 amended: the accumulator may exceed `[0, 150]` only transiently within
a cycle (the arbitration arithmetic is unclamped), but the clamp at the end of
the cycle is stored back into `pwm`, so the accumulator lies within `[0, 150]`
at the end of every cycle and cannot wind up across cycle boundaries. -/
theorem pwm_accumulator_clamped_each_cycle (c : Config) (s : State) :
    (0 ≤ (cycleAfterGate c s).pwm ∧ (cycleAfterGate c s).pwm ≤ 150) ∧
    (arbitrate defaultConfig stWindup).pwm > 150 := by
  constructor
  · rw [cycleAfterGate_pwm_eq]
    exact constrain_mem _
  · norm_num [arbitrate, cvPred, ccPred, bpPred, defaultConfig, initialState,
      stWindup]

theorem mpptDirectionStep_targetPanelVoltage (c : Config) (s : State) :
    (mpptDirectionStep c s).targetPanelVoltage =
      if steppedTarget c s ≤ c.minPanelVoltage then
        (c.minPanelVoltage + c.maxPanelVoltage) / 2
      else if steppedTarget c s ≥ c.maxPanelVoltage then
        (c.minPanelVoltage + c.maxPanelVoltage) / 2
      else steppedTarget c s := by
  simp only [mpptDirectionStep]
  split_ifs <;> rfl

theorem mpptDirectionStep_trackingDownwards (c : Config) (s : State) :
    (mpptDirectionStep c s).trackingDownwards =
      if steppedTarget c s ≤ c.minPanelVoltage then s.trackingDownwards
      else if steppedTarget c s ≥ c.maxPanelVoltage then s.trackingDownwards
      else if s.outputPower - s.outputPowerPrevious < 0.1 then
        !s.trackingDownwards
      else s.trackingDownwards := by
  simp only [mpptDirectionStep]
  split_ifs <;> rfl

/-- Concrete state sitting exactly at `minPanelVoltage` while tracking
upwards, with a clearly rising power history. -/
def stAtMinUp : State :=
  { initialState with
    targetPanelVoltage := 12
    trackingDownwards := false
    outputPower := 50
    outputPowerPrevious := 0 }

/-- C5 counterexample: with `targetPanelVoltage` at `minPanelVoltage` (12) but
`trackingDownwards = false`, the direction sub-loop steps the target to 12.5,
which is strictly inside the band, so the midpoint snap does not fire and the
next value is not the midpoint 14. -/
theorem midpoint_snap_counterexample :
    stAtMinUp.targetPanelVoltage = defaultConfig.minPanelVoltage ∧
    (mpptDirectionStep defaultConfig stAtMinUp).targetPanelVoltage = 12.5 ∧
    (mpptDirectionStep defaultConfig stAtMinUp).targetPanelVoltage ≠
      (defaultConfig.minPanelVoltage + defaultConfig.maxPanelVoltage) / 2 := by
  refine ⟨rfl, ?_, ?_⟩ <;>
    rw [mpptDirectionStep_targetPanelVoltage] <;>
    norm_num [steppedTarget, stAtMinUp, initialState, defaultConfig]

/-- C5 amended: the stepped target is snapped to the midpoint exactly when it
leaves the open band, and the direction-flip check is skipped on that path; in
particular from `targetPanelVoltage = minPanelVoltage` with
`trackingDownwards = true` (and symmetrically from `maxPanelVoltage` with
`trackingDownwards = false`) the next update yields the midpoint; in every
case the updated target stays within `[minPanelVoltage, maxPanelVoltage]`. -/
theorem mppt_target_midpoint_snap (c : Config) (s : State)
    (hlt : c.minPanelVoltage ≤ c.maxPanelVoltage)
    (hinc : 0 ≤ c.trackingIncrement) :
    ((steppedTarget c s ≤ c.minPanelVoltage ∨
        c.maxPanelVoltage ≤ steppedTarget c s) →
      (mpptDirectionStep c s).targetPanelVoltage =
          (c.minPanelVoltage + c.maxPanelVoltage) / 2 ∧
        (mpptDirectionStep c s).trackingDownwards = s.trackingDownwards) ∧
    (s.targetPanelVoltage = c.minPanelVoltage ∧ s.trackingDownwards = true →
      (mpptDirectionStep c s).targetPanelVoltage =
        (c.minPanelVoltage + c.maxPanelVoltage) / 2) ∧
    (s.targetPanelVoltage = c.maxPanelVoltage ∧ s.trackingDownwards = false →
      (mpptDirectionStep c s).targetPanelVoltage =
        (c.minPanelVoltage + c.maxPanelVoltage) / 2) ∧
    (c.minPanelVoltage ≤ (mpptDirectionStep c s).targetPanelVoltage ∧
      (mpptDirectionStep c s).targetPanelVoltage ≤ c.maxPanelVoltage) := by
  refine ⟨?_, ?_, ?_, ?_⟩
  · intro h
    rw [mpptDirectionStep_targetPanelVoltage, mpptDirectionStep_trackingDownwards]
    rcases h with h | h
    · rw [if_pos h, if_pos h]; exact ⟨rfl, rfl⟩
    · by_cases h1 : steppedTarget c s ≤ c.minPanelVoltage
      · rw [if_pos h1, if_pos h1]; exact ⟨rfl, rfl⟩
      · rw [if_neg h1, if_neg h1, if_pos h, if_pos h]; exact ⟨rfl, rfl⟩
  · rintro ⟨ha, hb⟩
    have hstep : steppedTarget c s = s.targetPanelVoltage - c.trackingIncrement := by
      simp [steppedTarget, hb]
    have ht : steppedTarget c s ≤ c.minPanelVoltage := by
      rw [hstep, ha]; linarith
    rw [mpptDirectionStep_targetPanelVoltage, if_pos ht]
  · rintro ⟨ha, hb⟩
    have hstep : steppedTarget c s = s.targetPanelVoltage + c.trackingIncrement := by
      simp [steppedTarget, hb]
    have ht : c.maxPanelVoltage ≤ steppedTarget c s := by
      rw [hstep, ha]; linarith
    rw [mpptDirectionStep_targetPanelVoltage]
    by_cases h1 : steppedTarget c s ≤ c.minPanelVoltage
    · rw [if_pos h1]
    · rw [if_neg h1, if_pos ht]
  · rw [mpptDirectionStep_targetPanelVoltage]
    split_ifs with h1 h2
    · constructor <;> linarith
    · constructor <;> linarith
    · have := not_le.mp h1
      have := not_le.mp h2
      constructor <;> linarith

/-- Witness for C5 (amended): from target 12 = `minPanelVoltage`, tracking
downwards, one invocation yields the midpoint 14. -/
theorem mppt_target_midpoint_snap_witness :
    (mpptDirectionStep defaultConfig
        { initialState with targetPanelVoltage := 12,
                            trackingDownwards := true }).targetPanelVoltage = 14 := by
  have h := (mppt_target_midpoint_snap defaultConfig
      { initialState with targetPanelVoltage := 12, trackingDownwards := true }
      (by norm_num [defaultConfig]) (by norm_num [defaultConfig])).2.1 ⟨rfl, rfl⟩
  rw [h]
  norm_num [defaultConfig]

/-- C6: when the stepped target stays strictly inside the band,
`trackingDownwards` is negated exactly when
`outputPower - outputPowerPrevious < 0.1`. -/
theorem tracking_flip_iff (c : Config) (s : State)
    (hlo : c.minPanelVoltage < steppedTarget c s)
    (hhi : steppedTarget c s < c.maxPanelVoltage) :
    (mpptDirectionStep c s).trackingDownwards =
      if s.outputPower - s.outputPowerPrevious < 0.1 then !s.trackingDownwards
      else s.trackingDownwards := by
  rw [mpptDirectionStep_trackingDownwards, if_neg (not_le.mpr hlo),
    if_neg (not_le.mpr hhi)]

/-- Concrete state for the C6 witness: power fell by 0.5 W, currently tracking
upwards, stepped target 14.5 strictly inside (12, 16). -/
def stFlip : State :=
  { initialState with
    targetPanelVoltage := 14
    trackingDownwards := false
    outputPower := 10
    outputPowerPrevious := 10.5 }

/-- Witness for C6: a power delta of -0.5 flips `trackingDownwards` from
`false` to `true` in one direction sub-loop invocation. -/
theorem tracking_flip_iff_witness :
    (mpptDirectionStep defaultConfig stFlip).trackingDownwards = true := by
  have h := tracking_flip_iff defaultConfig stFlip
    (by norm_num [steppedTarget, stFlip, initialState, defaultConfig])
    (by norm_num [steppedTarget, stFlip, initialState, defaultConfig])
  rw [h]
  norm_num [stFlip, initialState]

theorem readSensors_controlMode (c : Config) (r : Reading) (s : State) :
    (readSensors c r s).controlMode = s.controlMode := rfl

theorem readSensors_targetPanelVoltage (c : Config) (r : Reading) (s : State) :
    (readSensors c r s).targetPanelVoltage = s.targetPanelVoltage := rfl

theorem readSensors_trackingDownwards (c : Config) (r : Reading) (s : State) :
    (readSensors c r s).trackingDownwards = s.trackingDownwards := rfl

theorem readSensors_pwm (c : Config) (r : Reading) (s : State) :
    (readSensors c r s).pwm = s.pwm := rfl

theorem readSensors_pwmOut (c : Config) (r : Reading) (s : State) :
    (readSensors c r s).pwmOut = s.pwmOut := rfl

theorem readSensors_millis (c : Config) (r : Reading) (s : State) :
    (readSensors c r s).millis = s.millis := rfl

theorem checkVcc_controlMode (v : ℚ) (s : State) :
    (checkVcc v s).controlMode = s.controlMode := by
  unfold checkVcc; split_ifs <;> rfl

theorem checkVcc_targetPanelVoltage (v : ℚ) (s : State) :
    (checkVcc v s).targetPanelVoltage = s.targetPanelVoltage := by
  unfold checkVcc; split_ifs <;> rfl

theorem checkVcc_trackingDownwards (v : ℚ) (s : State) :
    (checkVcc v s).trackingDownwards = s.trackingDownwards := by
  unfold checkVcc; split_ifs <;> rfl

theorem checkVcc_pwm (v : ℚ) (s : State) :
    (checkVcc v s).pwm = s.pwm := by
  unfold checkVcc; split_ifs <;> rfl

theorem checkVcc_pwmOut (v : ℚ) (s : State) :
    (checkVcc v s).pwmOut = s.pwmOut := by
  unfold checkVcc; split_ifs <;> rfl

theorem checkVcc_millis (v : ℚ) (s : State) :
    (checkVcc v s).millis = s.millis := by
  unfold checkVcc; split_ifs <;> rfl

theorem uvWaitStep_controlMode (c : Config) (r : Reading) (s : State) :
    (uvWaitStep c r s).controlMode = s.controlMode := by
  unfold uvWaitStep
  rw [readSensors_controlMode, checkVcc_controlMode]

theorem uvWaitStep_targetPanelVoltage (c : Config) (r : Reading) (s : State) :
    (uvWaitStep c r s).targetPanelVoltage = s.targetPanelVoltage := by
  unfold uvWaitStep
  rw [readSensors_targetPanelVoltage, checkVcc_targetPanelVoltage]

theorem uvWaitStep_trackingDownwards (c : Config) (r : Reading) (s : State) :
    (uvWaitStep c r s).trackingDownwards = s.trackingDownwards := by
  unfold uvWaitStep
  rw [readSensors_trackingDownwards, checkVcc_trackingDownwards]

theorem uvWaitStep_pwm (c : Config) (r : Reading) (s : State) :
    (uvWaitStep c r s).pwm = 0 := by
  unfold uvWaitStep
  rw [readSensors_pwm, checkVcc_pwm]

theorem uvWaitStep_pwmOut (c : Config) (r : Reading) (s : State) :
    (uvWaitStep c r s).pwmOut = 0 := by
  unfold uvWaitStep
  rw [readSensors_pwmOut, checkVcc_pwmOut]

theorem uvWaitStep_millis (c : Config) (r : Reading) (s : State) :
    (uvWaitStep c r s).millis = s.millis + 2000 := by
  unfold uvWaitStep
  rw [readSensors_millis, checkVcc_millis]

theorem uvWait_controlMode (c : Config) (rs : List Reading) (s : State) :
    (uvWait c rs s).controlMode = s.controlMode := by
  induction rs generalizing s with
  | nil => rfl
  | cons r rs ih =>
    unfold uvWait
    split_ifs
    · rw [ih, uvWaitStep_controlMode]
    · rfl

theorem uvWait_targetPanelVoltage (c : Config) (rs : List Reading) (s : State) :
    (uvWait c rs s).targetPanelVoltage = s.targetPanelVoltage := by
  induction rs generalizing s with
  | nil => rfl
  | cons r rs ih =>
    unfold uvWait
    split_ifs
    · rw [ih, uvWaitStep_targetPanelVoltage]
    · rfl

theorem uvWait_trackingDownwards (c : Config) (rs : List Reading) (s : State) :
    (uvWait c rs s).trackingDownwards = s.trackingDownwards := by
  induction rs generalizing s with
  | nil => rfl
  | cons r rs ih =>
    unfold uvWait
    split_ifs
    · rw [ih, uvWaitStep_trackingDownwards]
    · rfl

/-- C7: while `outputVoltage < 1.0 ∧ inputVoltage < 15.0` keeps holding after
sensor acquisition, the cycle never reaches mode arbitration (`mpptCycle`
returns `none`), `controlMode`, `targetPanelVoltage` and `trackingDownwards`
are unchanged throughout the wait, and each wait iteration forces the duty
cycle to 0 and advances the clock by the 2000 ms delay before re-sampling
sensors and reference voltage. -/
theorem undervoltage_gate_blocks (c : Config) (r0 r : Reading)
    (rs : List Reading) (s : State)
    (h : uvCond (uvWait c rs (readSensors c r0 s))) :
    mpptCycle c r0 rs s = none ∧
    (uvWait c rs (readSensors c r0 s)).controlMode = s.controlMode ∧
    (uvWait c rs (readSensors c r0 s)).targetPanelVoltage =
      s.targetPanelVoltage ∧
    (uvWait c rs (readSensors c r0 s)).trackingDownwards =
      s.trackingDownwards ∧
    (uvWaitStep c r (readSensors c r0 s)).pwm = 0 ∧
    (uvWaitStep c r (readSensors c r0 s)).pwmOut = 0 ∧
    (uvWaitStep c r (readSensors c r0 s)).millis =
      (readSensors c r0 s).millis + 2000 := by
  refine ⟨?_, ?_, ?_, ?_, uvWaitStep_pwm c r _, uvWaitStep_pwmOut c r _,
    uvWaitStep_millis c r _⟩
  · simp only [mpptCycle]
    rw [if_pos h]
  · rw [uvWait_controlMode, readSensors_controlMode]
  · rw [uvWait_targetPanelVoltage, readSensors_targetPanelVoltage]
  · rw [uvWait_trackingDownwards, readSensors_trackingDownwards]

/-- Raw readings producing a dark-panel snapshot (both dividers at zero). -/
def rDark : Reading :=
  { vsenseIn := 0, isenseOut := 504, vsenseOut := 0, vccMillivolts := 4500 }

/-- Witness for C7: with dark-panel readings the cycle is still blocked in the
undervoltage wait and never reaches arbitration. -/
theorem undervoltage_gate_blocks_witness :
    mpptCycle defaultConfig rDark [] initialState = none :=
  (undervoltage_gate_blocks defaultConfig rDark rDark [] initialState
    (by refine ⟨?_, ?_⟩ <;>
      norm_num [uvWait, readSensors, averageA, initialState, rDark,
        acs712Offset, acs712VoltsPerAmp])).1

/-- Raw readings yielding a tiny input voltage of 0.1 V (with vcc = 4.5 V),
while a sun-starved panel still drives some filtered output current. -/
def rSmallIn : Reading :=
  { vsenseIn := 31 / 15, isenseOut := 904, vsenseOut := 0, vccMillivolts := 4500 }

/-- C8: sensor acquisition derives `inputCurrent` as
`outputCurrent * outputVoltage / inputVoltage / efficiency` with no guard on
the divisor — the equation holds for every reading, including readings with
`inputVoltage` at or near zero — and the undervoltage gate does not make that
range unreachable: at `inputVoltage = 0.1` the gate condition holds and the
cycle blocks, but only after `readSensors` (and hence the division) has
already executed, since the gate is evaluated on the state `readSensors`
returns. -/
theorem inputCurrent_division_unguarded :
    (∀ (c : Config) (r : Reading) (s : State),
      (readSensors c r s).inputCurrent =
        (readSensors c r s).outputCurrent * (readSensors c r s).outputVoltage /
          (readSensors c r s).inputVoltage / c.efficiency) ∧
    (readSensors defaultConfig rSmallIn initialState).inputVoltage = 0.1 ∧
    uvCond (readSensors defaultConfig rSmallIn initialState) ∧
    mpptCycle defaultConfig rSmallIn [] initialState = none := by
  refine ⟨fun c r s => rfl, ?_, ?_, ?_⟩
  · norm_num [readSensors, averageA, initialState, rSmallIn, acs712Offset,
      acs712VoltsPerAmp]
  · refine ⟨?_, ?_⟩ <;>
      norm_num [readSensors, averageA, initialState, rSmallIn, acs712Offset,
        acs712VoltsPerAmp]
  · simp only [mpptCycle, uvWait]
    rw [if_pos]
    refine ⟨?_, ?_⟩ <;>
      norm_num [readSensors, averageA, initialState, rSmallIn, acs712Offset,
        acs712VoltsPerAmp]

/-- Raw readings for the power-lag scenario: 16 V in, 4 V out, zero fresh
current sample. -/
def rLag : Reading :=
  { vsenseIn := 992 / 3, isenseOut := 504, vsenseOut := 736 / 3,
    vccMillivolts := 4500 }

/-- State for the power-lag scenario: previous output voltage 5 V, filter
window holding three unit samples. -/
def stLag : State :=
  { initialState with outputVoltage := 5, raw0 := 1, raw1 := 1, raw2 := 1 }

/-- C9: `outputPower` is the product of the current cycle's `outputCurrent`
with the previous cycle's `outputVoltage` (it is assigned before
`outputVoltage` is recomputed in the same `readSensors` call), so it lags the
freshly measured voltage: concretely, with previous voltage 5 V and fresh
voltage 4 V at 0.75 A, the stored power is 3.75 W, not 3 W. -/
theorem outputPower_one_cycle_lag :
    (∀ (c : Config) (r : Reading) (s : State),
      (readSensors c r s).outputPower =
        s.outputVoltage * (readSensors c r s).outputCurrent) ∧
    (readSensors defaultConfig rLag stLag).outputPower = 15 / 4 ∧
    (readSensors defaultConfig rLag stLag).outputVoltage *
      (readSensors defaultConfig rLag stLag).outputCurrent = 3 ∧
    (readSensors defaultConfig rLag stLag).outputPower ≠
      (readSensors defaultConfig rLag stLag).outputVoltage *
        (readSensors defaultConfig rLag stLag).outputCurrent := by
  refine ⟨fun c r s => rfl, ?_, ?_, ?_⟩ <;>
    norm_num [readSensors, averageA, initialState, stLag, rLag, acs712Offset,
      acs712VoltsPerAmp]
